import Mathlib

/-!
Shallow embedding of the quiz-system backend's timed-attempt lifecycle and
scoring pipeline (app/services/attempt_service.py, app/services/scoring_service.py,
app/repositories/attempt_repo.py, app/repositories/quiz_repo.py,
app/workers/attempt_worker.py, app/domain/enums.py, app/db/base.py).

Modelling conventions:
- UUID primary/foreign keys are modelled as `Nat`; `datetime` values as `Int`
  (a timestamp in seconds); `datetime.utcnow()` is an explicit `now` argument.
- The database session is a record of the five tables the claims touch; every
  repository call that commits is modelled as returning the new table contents.
- Service operations return `Except QuizError α × DB`: the raised domain
  exception (or the computed value) together with the database state after the
  operation, since each repository call commits independently.
- Python `round(x, 2)` is modelled on exact rationals as rounding `x * 100` to
  the nearest integer with ties to even, then dividing by 100.
-/

namespace QuizSystem

/-- Attempt statuses from app/domain/enums.py (`AttemptStatus`). -/
inductive AttemptStatus where
  | IN_PROGRESS
  | SUBMITTED
  | EXPIRED
deriving DecidableEq, BEq, Repr

/-- Quiz row (app/db/base.py `Quiz`): the columns the lifecycle and scoring
read. `max_attempts` is `Optional[int]` with `ge=1`; `passing_score` is an
`int` with `ge=0`. -/
structure Quiz where
  id : Nat
  duration_minutes : Nat
  passing_score : Int
  is_public : Bool
  is_published : Bool
  max_attempts : Option Nat
deriving DecidableEq, Repr

/-- Question row (app/db/base.py `Question`). -/
structure Question where
  id : Nat
  quiz_id : Nat
  question_type : String
  correct_answer : String
  points : Nat
  order : Nat
deriving DecidableEq, Repr

/-- Quiz assignment row (app/db/base.py `QuizAssignment`). -/
structure QuizAssignment where
  quiz_id : Nat
  user_id : Nat
  is_active : Bool
  due_date : Option Int
deriving DecidableEq, Repr

/-- Attempt row (app/db/base.py `Attempt`). -/
structure Attempt where
  id : Nat
  quiz_id : Nat
  user_id : Nat
  started_at : Int
  expires_at : Int
  submitted_at : Option Int
  is_submitted : Bool
  time_taken_seconds : Option Int
  status : AttemptStatus
deriving DecidableEq, Repr

/-- Answer row (app/db/base.py `Answer`). `is_correct` is nullable and only
populated at scoring time. -/
structure Answer where
  attempt_id : Nat
  question_id : Nat
  selected_answer : String
  is_correct : Option Bool
  answered_at : Int
deriving DecidableEq, Repr

/-- Result row (app/db/base.py `Result`), written once per attempt by
`AttemptService.submit_attempt`. -/
structure ResultRow where
  attempt_id : Nat
  user_id : Nat
  quiz_id : Nat
  score : Nat
  total_points : Nat
  percentage : Rat
  passed : Bool
deriving DecidableEq, Repr

/-- The database state: the five tables the attempt lifecycle touches. -/
structure DB where
  quizzes : List Quiz
  questions : List Question
  assignments : List QuizAssignment
  attempts : List Attempt
  answers : List Answer
  results : List ResultRow
deriving DecidableEq, Repr

/-- Domain exceptions from app/core/exceptions.py that the modelled operations
raise. `valueError` stands for the bare `ValueError` raised by
`ScoringService.calculate_score` on a missing attempt; `attributeError` marks
the path where Python would dereference a `None` quiz. -/
inductive QuizError where
  | quizNotFound
  | quizNotPublished
  | quizAccessDenied
  | activeAttemptExists
  | maxAttemptsReached
  | attemptNotFound
  | quizExpired
  | alreadySubmitted
  | valueError
  | attributeError
deriving DecidableEq, BEq, Repr

/-! ## Repository layer -/

/-- QuizRepository.get_by_id: first quiz row with the given id. -/
def get_quiz_by_id (db : DB) (quiz_id : Nat) : Option Quiz :=
  db.quizzes.find? (fun q => q.id == quiz_id)

/-- QuizRepository.get_questions: all questions of the quiz, ordered by the
`order` column. -/
def get_questions (db : DB) (quiz_id : Nat) : List Question :=
  List.insertionSort (fun a b => a.order ≤ b.order)
    (db.questions.filter (fun q => q.quiz_id == quiz_id))

/-- QuizRepository.get_user_assignment: the assignment for (quiz, user) with
`is_active == True` (the query filters on `is_active`). -/
def get_user_assignment (db : DB) (quiz_id user_id : Nat) : Option QuizAssignment :=
  db.assignments.find? (fun a =>
    a.quiz_id == quiz_id && a.user_id == user_id && a.is_active)

/-- AttemptRepository.get_by_id (and get_for_update, which runs the same query
under a row lock): first attempt row with the given id. -/
def get_attempt_by_id (db : DB) (attempt_id : Nat) : Option Attempt :=
  db.attempts.find? (fun a => a.id == attempt_id)

/-- AttemptRepository.get_active_attempt: attempt for (user, quiz) whose
status is IN_PROGRESS. -/
def get_active_attempt (db : DB) (user_id quiz_id : Nat) : Option Attempt :=
  db.attempts.find? (fun a =>
    a.user_id == user_id && a.quiz_id == quiz_id && a.status == AttemptStatus.IN_PROGRESS)

/-- AttemptRepository.count_user_attempts: number of attempt rows for
(user, quiz), with no filter on status or submission. -/
def count_user_attempts (db : DB) (user_id quiz_id : Nat) : Nat :=
  (db.attempts.filter (fun a => a.user_id == user_id && a.quiz_id == quiz_id)).length

/-- AttemptRepository.get_expired_attempts: attempts with `expires_at < now`
and status IN_PROGRESS. -/
def get_expired_attempts (db : DB) (now : Int) : List Attempt :=
  db.attempts.filter (fun a =>
    decide (a.expires_at < now) && a.status == AttemptStatus.IN_PROGRESS)

/-- AttemptRepository.create: inserts a fresh IN_PROGRESS attempt. The id,
normally a generated UUID, is passed in explicitly. -/
def create_attempt (db : DB) (now : Int) (quiz_id user_id new_id : Nat)
    (expires_at : Int) : Attempt × DB :=
  let attempt : Attempt :=
    { id := new_id, quiz_id := quiz_id, user_id := user_id, started_at := now
      expires_at := expires_at, submitted_at := none, is_submitted := false
      time_taken_seconds := none, status := AttemptStatus.IN_PROGRESS }
  (attempt, { db with attempts := db.attempts ++ [attempt] })

/-- AttemptRepository.create_answer: upsert keyed on (attempt_id, question_id).
An existing row gets `selected_answer` and `answered_at` overwritten;
otherwise a new row with `is_correct = None` is inserted. -/
def create_answer (db : DB) (now : Int) (attempt_id question_id : Nat)
    (selected_answer : String) : Answer × DB :=
  match db.answers.find? (fun a =>
      a.attempt_id == attempt_id && a.question_id == question_id) with
  | some existing =>
    let updated := { existing with selected_answer := selected_answer, answered_at := now }
    (updated,
      { db with answers := db.answers.map (fun a =>
          if a.attempt_id == attempt_id && a.question_id == question_id then updated else a) })
  | none =>
    let answer : Answer :=
      { attempt_id := attempt_id, question_id := question_id
        selected_answer := selected_answer, is_correct := none, answered_at := now }
    (answer, { db with answers := db.answers ++ [answer] })

/-! ## Scoring service (app/services/scoring_service.py) -/

/-- Python `str.strip()` with no argument: remove leading and trailing
whitespace, modelled on the string's character list. -/
def pyStrip (l : List Char) : List Char :=
  ((l.dropWhile Char.isWhitespace).reverse.dropWhile Char.isWhitespace).reverse

/-- Python `str.lower()`: lowercase every character. -/
def pyLower (l : List Char) : List Char :=
  l.map Char.toLower

/-- ScoringService._check_answer: case-insensitive, whitespace-trimmed string
equality (`selected_answer.strip().lower() == correct_answer.strip().lower()`);
the `question_type` argument is accepted but never used. -/
def check_answer (selected_answer correct_answer : String)
    (question_type : String) : Bool :=
  let selected := pyLower (pyStrip selected_answer.data)
  let correct := pyLower (pyStrip correct_answer.data)
  selected == correct

/-- Python `round` to the nearest integer, ties to even (banker's rounding),
on exact rationals. -/
def roundHalfEven (x : Rat) : Int :=
  let f : Int := ⌊x⌋
  let r : Rat := x - (f : Rat)
  if r < 1/2 then f
  else if 1/2 < r then f + 1
  else if f % 2 == 0 then f else f + 1

/-- Python `round(x, 2)` on exact rationals. -/
def round2 (x : Rat) : Rat :=
  ((roundHalfEven (x * 100) : Int) : Rat) / 100

/-- The scoring loop body for one answer: look the question up in the quiz's
question dictionary; a missing question is skipped (the answer is returned
unchanged), otherwise `is_correct` is set from `_check_answer`. -/
def gradeAnswer (questions : List Question) (a : Answer) : Answer :=
  match questions.find? (fun q => q.id == a.question_id) with
  | none => a
  | some q =>
    { a with is_correct := some (check_answer a.selected_answer q.correct_answer q.question_type) }

/-- Points one answer contributes to the score: the question's points if the
question exists and `_check_answer` judges the answer correct, else 0. -/
def answerPoints (questions : List Question) (a : Answer) : Nat :=
  match questions.find? (fun q => q.id == a.question_id) with
  | none => 0
  | some q => if check_answer a.selected_answer q.correct_answer q.question_type then q.points else 0

/-- Scoring summary returned by `calculate_score` (the dict of score,
total_points, percentage, passed). -/
structure ScoreData where
  score : Nat
  total_points : Nat
  percentage : Rat
  passed : Bool
deriving DecidableEq, Repr

/-- The `score` accumulated by the scoring loop of `calculate_score`: the sum,
over the attempt's answers, of the points contributed by each answer. -/
def scoreOf (db : DB) (attempt_id quiz_id : Nat) : Nat :=
  ((db.answers.filter (fun a => a.attempt_id == attempt_id)).map
    (answerPoints (get_questions db quiz_id))).sum

/-- The `total_points` of `calculate_score`: sum of `points` over all the
quiz's questions, answered or not. -/
def totalPointsOf (db : DB) (quiz_id : Nat) : Nat :=
  ((get_questions db quiz_id).map (fun q => q.points)).sum

/-- The pre-rounding `percentage` of `calculate_score`:
`score / total_points * 100 if total_points > 0 else 0`. -/
def rawPercentage (score total_points : Nat) : Rat :=
  if total_points > 0 then (score : Rat) / (total_points : Rat) * 100 else 0

/-- The answers table after the scoring loop's `answer.is_correct` updates:
each of the attempt's answers is graded, every other row is untouched. -/
def gradedAnswers (db : DB) (attempt_id quiz_id : Nat) : List Answer :=
  db.answers.map (fun a =>
    if a.attempt_id == attempt_id then gradeAnswer (get_questions db quiz_id) a else a)

/-- ScoringService.calculate_score: grades the attempt's answers against the
quiz's questions. Returns the score dict together with the full answers table
after the in-transaction `is_correct` updates (flushed by the caller's
commit). A missing attempt raises `ValueError`; a missing quiz would crash on
`quiz.passing_score`. Note `passed` compares the pre-rounding percentage with
the passing score, while the returned `percentage` is rounded. -/
def calculate_score (db : DB) (attempt_id : Nat) :
    Except QuizError (ScoreData × List Answer) :=
  match get_attempt_by_id db attempt_id with
  | none => Except.error QuizError.valueError
  | some attempt =>
    let score := scoreOf db attempt_id attempt.quiz_id
    let total_points := totalPointsOf db attempt.quiz_id
    let percentage := rawPercentage score total_points
    match get_quiz_by_id db attempt.quiz_id with
    | none => Except.error QuizError.attributeError
    | some quiz =>
      let passed := decide (percentage ≥ (quiz.passing_score : Rat))
      Except.ok
        ({ score := score, total_points := total_points
           percentage := round2 percentage, passed := passed },
         gradedAnswers db attempt_id attempt.quiz_id)

/-! ## Attempt service (app/services/attempt_service.py) -/

/-- AttemptService.can_user_access_quiz: public quizzes are open to anyone;
otherwise access requires an active assignment whose due date (if any) has
not passed. Returns `none` when the quiz row is absent (the Python code would
dereference `None`). -/
def can_user_access_quiz (db : DB) (now : Int) (user_id quiz_id : Nat) : Option Bool :=
  match get_quiz_by_id db quiz_id with
  | none => none
  | some quiz =>
    if quiz.is_public then some true
    else
      match get_user_assignment db quiz_id user_id with
      | some assignment =>
        if assignment.is_active then
          match assignment.due_date with
          | some d => if now > d then some false else some true
          | none => some true
        else some false
      | none => some false

/-- AttemptService.submit_attempt: under the row lock, re-checks
`is_submitted`, computes the score, inserts the Result row, and flips the
attempt to SUBMITTED. Every error path leaves the database unchanged. -/
def submit_attempt (db : DB) (now : Int) (attempt_id : Nat) :
    Except QuizError ScoreData × DB :=
  match get_attempt_by_id db attempt_id with
  | none => (Except.error QuizError.attemptNotFound, db)
  | some attempt =>
    if attempt.is_submitted then (Except.error QuizError.alreadySubmitted, db)
    else
      let time_taken_seconds := now - attempt.started_at
      match calculate_score db attempt_id with
      | Except.error e => (Except.error e, db)
      | Except.ok (score_data, graded_answers) =>
        let result : ResultRow :=
          { attempt_id := attempt_id,
            user_id := attempt.user_id,
            quiz_id := attempt.quiz_id,
            score := score_data.score,
            total_points := score_data.total_points,
            percentage := score_data.percentage,
            passed := score_data.passed }
        let attempt' :=
          { attempt with
            is_submitted := true,
            submitted_at := some now,
            time_taken_seconds := some time_taken_seconds,
            status := AttemptStatus.SUBMITTED }
        (Except.ok score_data,
          { db with
              answers := graded_answers,
              results := db.results ++ [result],
              attempts := db.attempts.map (fun x =>
                if x.id == attempt.id then attempt' else x) })

/-- AttemptService.submit_answer: rejects a missing or already-submitted
attempt; on an expired attempt it first runs `submit_attempt` (auto-submit)
and then raises the expiry error, never persisting the late answer; otherwise
it upserts the answer. -/
def submit_answer (db : DB) (now : Int) (attempt_id question_id : Nat)
    (selected_answer : String) : Except QuizError Answer × DB :=
  match get_attempt_by_id db attempt_id with
  | none => (Except.error QuizError.attemptNotFound, db)
  | some attempt =>
    if attempt.is_submitted then (Except.error QuizError.alreadySubmitted, db)
    else if now > attempt.expires_at then
      match submit_attempt db now attempt_id with
      | (Except.error e, db') => (Except.error e, db')
      | (Except.ok _, db') => (Except.error QuizError.quizExpired, db')
    else
      let (answer, db') := create_answer db now attempt_id question_id selected_answer
      (Except.ok answer, db')

/-- AttemptService.start_attempt: checks, in order, quiz existence,
publication, access, no active attempt, and the max-attempts cap (skipped
when `max_attempts` is falsy, i.e. None or 0), then creates an IN_PROGRESS
attempt expiring `duration_minutes` from now. -/
def start_attempt (db : DB) (now : Int) (quiz_id user_id new_id : Nat) :
    Except QuizError Attempt × DB :=
  match get_quiz_by_id db quiz_id with
  | none => (Except.error QuizError.quizNotFound, db)
  | some quiz =>
    if !quiz.is_published then (Except.error QuizError.quizNotPublished, db)
    else if !((can_user_access_quiz db now user_id quiz_id).getD false) then
      (Except.error QuizError.quizAccessDenied, db)
    else
      match get_active_attempt db user_id quiz_id with
      | some _ => (Except.error QuizError.activeAttemptExists, db)
      | none =>
        if quiz.max_attempts.getD 0 ≠ 0 &&
            count_user_attempts db user_id quiz_id ≥ quiz.max_attempts.getD 0 then
          (Except.error QuizError.maxAttemptsReached, db)
        else
          let expires_at := now + 60 * (quiz.duration_minutes : Int)
          let (attempt, db') := create_attempt db now quiz_id user_id new_id expires_at
          (Except.ok attempt, db')

/-- Embeds auto_submit_expired_attempts from app/workers/attempt_worker.py.
The task body only logs two messages and returns a success status: the
auto-submit logic is a TODO comment, so no attempt row is read or modified. -/
def auto_submit_expired_attempts (db : DB) : String × DB :=
  ("success", db)

/-! ## Derived forms and shared lemmas -/

/-- The score dict `calculate_score` returns on its success path, as a
function of the tables. -/
def scoreDataOf (db : DB) (attempt_id quiz_id : Nat) (passing_score : Int) : ScoreData :=
  { score := scoreOf db attempt_id quiz_id,
    total_points := totalPointsOf db quiz_id,
    percentage := round2 (rawPercentage (scoreOf db attempt_id quiz_id) (totalPointsOf db quiz_id)),
    passed := decide (rawPercentage (scoreOf db attempt_id quiz_id) (totalPointsOf db quiz_id) ≥ (passing_score : Rat)) }

/-- The attempt row as `submit_attempt` rewrites it on success. -/
def submittedAttempt (a : Attempt) (now : Int) : Attempt :=
  { a with
    is_submitted := true,
    submitted_at := some now,
    time_taken_seconds := some (now - a.started_at),
    status := AttemptStatus.SUBMITTED }

/-- The Result row `submit_attempt` inserts on success. -/
def resultRowOf (db : DB) (attempt_id : Nat) (a : Attempt) (quiz : Quiz) : ResultRow :=
  { attempt_id := attempt_id, user_id := a.user_id, quiz_id := a.quiz_id,
    score := scoreOf db attempt_id a.quiz_id,
    total_points := totalPointsOf db a.quiz_id,
    percentage := round2 (rawPercentage (scoreOf db attempt_id a.quiz_id) (totalPointsOf db a.quiz_id)),
    passed := decide (rawPercentage (scoreOf db attempt_id a.quiz_id) (totalPointsOf db a.quiz_id) ≥ (quiz.passing_score : Rat)) }

theorem calculate_score_spec (db : DB) (aid : Nat) (attempt : Attempt) (quiz : Quiz)
    (ha : get_attempt_by_id db aid = some attempt)
    (hq : get_quiz_by_id db attempt.quiz_id = some quiz) :
    calculate_score db aid =
      Except.ok (scoreDataOf db aid attempt.quiz_id quiz.passing_score,
        gradedAnswers db aid attempt.quiz_id) := by
  simp only [calculate_score, ha, hq, scoreDataOf]

theorem submit_attempt_spec (db : DB) (now : Int) (aid : Nat) (a : Attempt) (quiz : Quiz)
    (ha : get_attempt_by_id db aid = some a)
    (hsub : a.is_submitted = false)
    (hq : get_quiz_by_id db a.quiz_id = some quiz) :
    submit_attempt db now aid =
      (Except.ok (scoreDataOf db aid a.quiz_id quiz.passing_score),
       { db with
           answers := gradedAnswers db aid a.quiz_id,
           results := db.results ++ [resultRowOf db aid a quiz],
           attempts := db.attempts.map (fun x =>
             if x.id == a.id then submittedAttempt a now else x) }) := by
  simp only [submit_attempt, ha, hsub, calculate_score_spec db aid a quiz ha hq,
    Bool.false_eq_true, if_false, scoreDataOf, resultRowOf, submittedAttempt]

theorem find?_map_ite {α : Type} (p : α → Bool) (b : α) (l : List α) (a : α)
    (h : l.find? p = some a) (hb : p b = true) :
    (l.map (fun x => if p x then b else x)).find? p = some b := by
  induction l with
  | nil => simp at h
  | cons y ys ih =>
    by_cases hy : p y = true
    · simp [List.find?_cons, hy, hb]
    · simp only [List.find?_cons, hy] at h
      simp only [Bool.not_eq_true] at hy
      simp [List.find?_cons, hy, ih h]

theorem find?_append_singleton {α : Type} (p : α → Bool) (b : α) (l : List α)
    (h : l.find? p = none) (hb : p b = true) :
    (l ++ [b]).find? p = some b := by
  induction l with
  | nil => simp [List.find?_cons, hb]
  | cons y ys ih =>
    simp only [List.cons_append, List.find?_cons] at h ⊢
    cases hy : p y with
    | true => simp [hy] at h
    | false =>
      simp only [hy] at h ⊢
      exact ih h

theorem totalPointsOf_eq_filter (db : DB) (quiz_id : Nat) :
    totalPointsOf db quiz_id =
      ((db.questions.filter (fun q => q.quiz_id == quiz_id)).map (fun q => q.points)).sum := by
  unfold totalPointsOf get_questions
  exact List.Perm.sum_eq (List.Perm.map _ (List.perm_insertionSort _ _))

theorem round2_zero : round2 0 = 0 := by
  norm_num [round2, roundHalfEven]

/-! ## Example data used by the concrete witnesses -/

/-- A published public quiz with a 50 percent passing score and three allowed
attempts. -/
def exQuiz : Quiz :=
  { id := 1, duration_minutes := 10, passing_score := 50, is_public := true,
    is_published := true, max_attempts := some 3 }

def exQuestion1 : Question :=
  { id := 1, quiz_id := 1, question_type := "mcq", correct_answer := "A",
    points := 1, order := 1 }

def exQuestion2 : Question :=
  { id := 2, quiz_id := 1, question_type := "true_false", correct_answer := "true",
    points := 1, order := 2 }

def exAttempt : Attempt :=
  { id := 1, quiz_id := 1, user_id := 7, started_at := 0, expires_at := 600,
    submitted_at := none, is_submitted := false, time_taken_seconds := none,
    status := AttemptStatus.IN_PROGRESS }

def exAnswer1 : Answer :=
  { attempt_id := 1, question_id := 1, selected_answer := " a ", is_correct := none,
    answered_at := 5 }

def exAnswer2 : Answer :=
  { attempt_id := 1, question_id := 2, selected_answer := "false", is_correct := none,
    answered_at := 6 }

/-- One in-progress attempt on the example quiz: the first answer is correct
after trimming and lowercasing, the second is wrong. -/
def exDB : DB :=
  { quizzes := [exQuiz], questions := [exQuestion1, exQuestion2], assignments := [],
    attempts := [exAttempt], answers := [exAnswer1, exAnswer2], results := [] }

/-- An already-submitted attempt on the example quiz. -/
def exSubmittedAttempt : Attempt :=
  { id := 1, quiz_id := 1, user_id := 7, started_at := 0, expires_at := 600,
    submitted_at := some 500, is_submitted := true, time_taken_seconds := some 500,
    status := AttemptStatus.SUBMITTED }

def exSubmittedDB : DB :=
  { quizzes := [exQuiz], questions := [exQuestion1, exQuestion2], assignments := [],
    attempts := [exSubmittedAttempt], answers := [], results := [] }

/-- A private published quiz used to exercise the assignment gate. -/
def exPrivateQuiz : Quiz :=
  { id := 2, duration_minutes := 10, passing_score := 50, is_public := false,
    is_published := true, max_attempts := none }

/-- An active assignment whose due date (100) is already in the past at the
times used below. -/
def exPastAssignment : QuizAssignment :=
  { quiz_id := 2, user_id := 7, is_active := true, due_date := some 100 }

def exAssignedDB : DB :=
  { quizzes := [exPrivateQuiz], questions := [], assignments := [exPastAssignment],
    attempts := [], answers := [], results := [] }

/-- An in-progress attempt whose expiry time 50 lies before the sweep time
100 used below. -/
def expiredAttempt : Attempt :=
  { id := 1, quiz_id := 1, user_id := 7, started_at := 0, expires_at := 50,
    submitted_at := none, is_submitted := false, time_taken_seconds := none,
    status := AttemptStatus.IN_PROGRESS }

def expiredDB : DB :=
  { quizzes := [exQuiz], questions := [exQuestion1, exQuestion2], assignments := [],
    attempts := [expiredAttempt], answers := [], results := [] }

/-- A quiz whose passing score of 67 sits just above the attainable raw
percentage 13600/203 = 66.995..., which rounds to 67.00. -/
def cexQuiz : Quiz :=
  { id := 1, duration_minutes := 10, passing_score := 67, is_public := true,
    is_published := true, max_attempts := none }

def cexAttempt : Attempt :=
  { id := 1, quiz_id := 1, user_id := 1, started_at := 0, expires_at := 600,
    submitted_at := none, is_submitted := false, time_taken_seconds := none,
    status := AttemptStatus.IN_PROGRESS }

/-- Two questions worth 136 and 67 points; the 136-point one is answered
correctly, so the raw percentage is 13600/203. -/
def cexDB : DB :=
  { quizzes := [cexQuiz],
    questions :=
      [{ id := 1, quiz_id := 1, question_type := "mcq", correct_answer := "a",
         points := 136, order := 1 },
       { id := 2, quiz_id := 1, question_type := "mcq", correct_answer := "a",
         points := 67, order := 2 }],
    assignments := [],
    attempts := [cexAttempt],
    answers :=
      [{ attempt_id := 1, question_id := 1, selected_answer := "a", is_correct := none,
         answered_at := 5 },
       { attempt_id := 1, question_id := 2, selected_answer := "b", is_correct := none,
         answered_at := 6 }],
    results := [] }

/-- The identifying fields of an answer row: everything except the
`is_correct` flag that scoring fills in. -/
def answerKey (x : Answer) : Nat × Nat × String × Int :=
  (x.attempt_id, x.question_id, x.selected_answer, x.answered_at)

theorem answerKey_gradeAnswer (questions : List Question) (x : Answer) :
    answerKey (gradeAnswer questions x) = answerKey x := by
  unfold gradeAnswer
  cases questions.find? (fun q => q.id == x.question_id) <;> rfl

theorem gradedAnswers_key (db : DB) (aid qid : Nat) :
    (gradedAnswers db aid qid).map answerKey = db.answers.map answerKey := by
  unfold gradedAnswers
  rw [List.map_map]
  apply List.map_congr_left
  intro x _
  by_cases hx : x.attempt_id = aid
  · simp [hx, answerKey_gradeAnswer]
  · simp [hx]

theorem beq_id_of_find? {l : List Attempt} {aid : Nat} {a : Attempt}
    (h : l.find? (fun x => x.id == aid) = some a) : a.id = aid := by
  have := List.find?_some h
  simpa using this

theorem find?_map_update_attempt (l : List Attempt) (aid : Nat) (a b : Attempt)
    (haid : a.id = aid) (hb : b.id = a.id)
    (h : l.find? (fun x => x.id == aid) = some a) :
    (l.map (fun x => if x.id == a.id then b else x)).find? (fun x => x.id == aid) = some b := by
  induction l with
  | nil => simp at h
  | cons y ys ih =>
    cases hy : (y.id == aid) with
    | true =>
      simp only [List.find?_cons, hy] at h
      obtain rfl : y = a := by simpa using h
      simp only [List.map_cons, List.find?_cons]
      simp [hb, haid]
    | false =>
      simp only [List.find?_cons, hy] at h
      have hy2 : (y.id == a.id) = false := by rw [haid]; exact hy
      simp only [List.map_cons, List.find?_cons, hy2, Bool.false_eq_true, if_false, hy]
      exact ih h

/-! ## Claim C3 -/

/-- C3: for every attempt (with its quiz present), `calculate_score` returns
`total_points` equal to the sum of points over all questions of the attempt's
quiz, answered or not; `percentage` equal to score/total_points×100 rounded
to 2 decimal places; and percentage 0 with no division fault when
total_points is 0. -/
theorem calculate_score_totals (db : DB) (aid : Nat) (a : Attempt) (quiz : Quiz)
    (ha : get_attempt_by_id db aid = some a)
    (hq : get_quiz_by_id db a.quiz_id = some quiz) :
    ∃ sd graded, calculate_score db aid = Except.ok (sd, graded) ∧
      sd.total_points =
        ((db.questions.filter (fun q => q.quiz_id == a.quiz_id)).map (fun q => q.points)).sum ∧
      sd.percentage =
        round2 (if sd.total_points > 0 then (sd.score : Rat) / (sd.total_points : Rat) * 100 else 0) ∧
      (sd.total_points = 0 → sd.percentage = 0) := by
  refine ⟨_, _, calculate_score_spec db aid a quiz ha hq, ?_, ?_, ?_⟩
  · simpa [scoreDataOf] using totalPointsOf_eq_filter db a.quiz_id
  · simp [scoreDataOf, rawPercentage]
  · intro h
    simp only [scoreDataOf] at h ⊢
    rw [h, rawPercentage]
    simpa using round2_zero

theorem calculate_score_totals_witness :
    ∃ sd graded, calculate_score exDB 1 = Except.ok (sd, graded) ∧
      sd.total_points =
        ((exDB.questions.filter (fun q => q.quiz_id == exAttempt.quiz_id)).map (fun q => q.points)).sum ∧
      sd.percentage =
        round2 (if sd.total_points > 0 then (sd.score : Rat) / (sd.total_points : Rat) * 100 else 0) ∧
      (sd.total_points = 0 → sd.percentage = 0) :=
  calculate_score_totals exDB 1 exAttempt exQuiz (by decide) (by decide)

/-! ## Claim C4 -/

/-- C4 counterexample: on `cexDB` the returned (rounded) percentage is 67 and
the quiz's passing score is 67, yet `passed` is `false`, because the source
compares the pre-rounding value 13600/203 < 67 with the threshold. This
refutes "passed iff the percentage rounded to 2 decimal places meets
passing_score". -/
theorem calculate_score_rounded_pass_cex :
    (calculate_score cexDB 1).toOption.map (fun p => p.1) =
      some { score := 136, total_points := 203, percentage := 67, passed := false } ∧
    (get_quiz_by_id cexDB 1).map (fun q => q.passing_score) = some 67 ∧
    ((67 : Rat) ≥ ((67 : Int) : Rat)) := by
  refine ⟨?_, by decide, by norm_num⟩
  have h := calculate_score_spec cexDB 1 cexAttempt cexQuiz (by decide) (by decide)
  have hs : scoreOf cexDB 1 cexAttempt.quiz_id = 136 := by decide
  have ht : totalPointsOf cexDB cexAttempt.quiz_id = 203 := by decide
  rw [h]
  simp only [Except.toOption, Option.map, scoreDataOf, hs, ht, Option.some.injEq,
    ScoreData.mk.injEq, true_and]
  constructor
  · norm_num [round2, roundHalfEven, rawPercentage, Int.fract]
  · norm_num [rawPercentage, cexQuiz]

/-- C4 amended: `passed` is true iff the pre-rounding percentage
(score/total_points×100, or 0 when total_points is 0) is at least the quiz's
`passing_score`; the 2-decimal rounding only affects the reported
`percentage`, not the pass decision. -/
theorem calculate_score_passed_unrounded (db : DB) (aid : Nat) (a : Attempt) (quiz : Quiz)
    (ha : get_attempt_by_id db aid = some a)
    (hq : get_quiz_by_id db a.quiz_id = some quiz) :
    ∃ sd graded, calculate_score db aid = Except.ok (sd, graded) ∧
      (sd.passed = true ↔
        rawPercentage sd.score sd.total_points ≥ (quiz.passing_score : Rat)) := by
  refine ⟨_, _, calculate_score_spec db aid a quiz ha hq, ?_⟩
  simp [scoreDataOf]

theorem calculate_score_passed_unrounded_witness :
    ∃ sd graded, calculate_score exDB 1 = Except.ok (sd, graded) ∧
      (sd.passed = true ↔
        rawPercentage sd.score sd.total_points ≥ (exQuiz.passing_score : Rat)) :=
  calculate_score_passed_unrounded exDB 1 exAttempt exQuiz (by decide) (by decide)

/-! ## Claim C1 -/

/-- C1: submit is exactly-once-effective. A `submit_attempt` call on an
attempt whose `is_submitted` flag is already true raises
AlreadySubmittedException and returns the database untouched — no scoring,
no Result row, no attempt mutation; and any successful call leaves the
attempt with `is_submitted` true and status SUBMITTED, so every later call
observes the conflict and changes nothing. -/
theorem submit_attempt_exactly_once (db : DB) (now : Int) (aid : Nat) (a : Attempt)
    (ha : get_attempt_by_id db aid = some a) :
    (a.is_submitted = true →
      submit_attempt db now aid = (Except.error QuizError.alreadySubmitted, db)) ∧
    (∀ sd db', submit_attempt db now aid = (Except.ok sd, db') →
      ∃ a', get_attempt_by_id db' aid = some a' ∧ a'.is_submitted = true ∧
        a'.status = AttemptStatus.SUBMITTED) := by
  have haid : a.id = aid := beq_id_of_find? ha
  constructor
  · intro hsub
    simp [submit_attempt, ha, hsub]
  · intro sd db' hok
    cases hsub : a.is_submitted with
    | true => simp [submit_attempt, ha, hsub] at hok
    | false =>
      simp only [submit_attempt, ha, hsub, Bool.false_eq_true, if_false] at hok
      rcases hcs : calculate_score db aid with e | ⟨sd0, graded⟩ <;>
        simp only [hcs] at hok
      · cases hok
      · rw [Prod.mk.injEq] at hok
        obtain ⟨-, hdb⟩ := hok
        refine ⟨submittedAttempt a now, ?_, rfl, rfl⟩
        rw [← hdb]
        have ha2 : db.attempts.find? (fun x => x.id == aid) = some a := ha
        show (db.attempts.map _).find? _ = _
        exact find?_map_update_attempt db.attempts aid a (submittedAttempt a now) haid rfl ha2

theorem submit_attempt_exactly_once_witness :
    submit_attempt exSubmittedDB 900 1 =
      (Except.error QuizError.alreadySubmitted, exSubmittedDB) :=
  (submit_attempt_exactly_once exSubmittedDB 900 1 exSubmittedAttempt (by decide)).1 (by decide)

/-! ## Claim C2 -/

/-- C2: a `submit_answer` call on an existing, not-yet-submitted attempt made
strictly after `expires_at` first finalizes the attempt through
`submit_attempt` (flipping it to submitted and inserting its Result, scored
from the answers persisted before expiry) and then reports the expiry error;
the late answer itself is never persisted — every answer row keeps its
previous attempt, question, selected answer and timestamp. -/
theorem submit_answer_expired_finalizes (db : DB) (now : Int) (aid qid : Nat)
    (sel : String) (a : Attempt) (quiz : Quiz)
    (ha : get_attempt_by_id db aid = some a)
    (hsub : a.is_submitted = false)
    (hexp : now > a.expires_at)
    (hq : get_quiz_by_id db a.quiz_id = some quiz) :
    submit_answer db now aid qid sel =
      (Except.error QuizError.quizExpired, (submit_attempt db now aid).2) ∧
    (∃ a', get_attempt_by_id (submit_attempt db now aid).2 aid = some a' ∧
      a'.is_submitted = true ∧ a'.status = AttemptStatus.SUBMITTED) ∧
    (∃ r, r ∈ (submit_attempt db now aid).2.results ∧ r.attempt_id = aid) ∧
    (submit_attempt db now aid).2.answers.map answerKey = db.answers.map answerKey := by
  have haid : a.id = aid := beq_id_of_find? ha
  have hspec := submit_attempt_spec db now aid a quiz ha hsub hq
  refine ⟨?_, ?_, ?_, ?_⟩
  · simp only [submit_answer, ha, hsub, Bool.false_eq_true, if_false, if_pos hexp, hspec]
  · rw [hspec]
    refine ⟨submittedAttempt a now, ?_, rfl, rfl⟩
    have ha2 : db.attempts.find? (fun x => x.id == aid) = some a := ha
    show (db.attempts.map _).find? _ = _
    exact find?_map_update_attempt db.attempts aid a (submittedAttempt a now) haid rfl ha2
  · rw [hspec]
    exact ⟨resultRowOf db aid a quiz, by simp, rfl⟩
  · rw [hspec]
    exact gradedAnswers_key db aid a.quiz_id

theorem submit_answer_expired_finalizes_witness :
    submit_answer exDB 700 1 2 "true" =
      (Except.error QuizError.quizExpired, (submit_attempt exDB 700 1).2) :=
  (submit_answer_expired_finalizes exDB 700 1 2 "true" exAttempt exQuiz
    (by decide) (by decide) (by decide) (by decide)).1

/-! ## Claim C5 -/

/-- C5: the scoring engine judges an answer correct exactly when the selected
and correct answers agree after stripping leading/trailing whitespace and
lowercasing, and the decision is the same whatever the question type
(multiple-choice or true-false) is. -/
theorem check_answer_policy (sel cor t : String) :
    (check_answer sel cor t = true ↔ pyLower (pyStrip sel.data) = pyLower (pyStrip cor.data)) ∧
    (∀ t2 : String, check_answer sel cor t = check_answer sel cor t2) := by
  constructor
  · simp [check_answer]
  · intro t2
    rfl

/-! ## Claim C6 -/

/-- C6: for a published, accessible quiz with `max_attempts = m ≥ 1` and no
active attempt, `start_attempt` succeeds exactly when the count of all
historical attempts for the (user, quiz) pair — with no status filter, so
expired and abandoned attempts count — is strictly below `m`, and raises the
max-attempts error otherwise, leaving the database unchanged. -/
theorem start_attempt_max_attempts (db : DB) (now : Int) (quiz_id user_id new_id : Nat)
    (quiz : Quiz) (m : Nat)
    (hq : get_quiz_by_id db quiz_id = some quiz)
    (hpub : quiz.is_published = true)
    (hacc : can_user_access_quiz db now user_id quiz_id = some true)
    (hact : get_active_attempt db user_id quiz_id = none)
    (hmax : quiz.max_attempts = some m) (hm : 0 < m) :
    (count_user_attempts db user_id quiz_id < m →
      start_attempt db now quiz_id user_id new_id =
        (Except.ok (create_attempt db now quiz_id user_id new_id
            (now + 60 * (quiz.duration_minutes : Int))).1,
         (create_attempt db now quiz_id user_id new_id
            (now + 60 * (quiz.duration_minutes : Int))).2)) ∧
    (count_user_attempts db user_id quiz_id ≥ m →
      start_attempt db now quiz_id user_id new_id =
        (Except.error QuizError.maxAttemptsReached, db)) ∧
    count_user_attempts db user_id quiz_id =
      (db.attempts.filter (fun a => a.user_id == user_id && a.quiz_id == quiz_id)).length := by
  have hm0 : m ≠ 0 := Nat.pos_iff_ne_zero.mp hm
  refine ⟨?_, ?_, rfl⟩
  · intro hlt
    simp [start_attempt, hq, hpub, hacc, hact, hmax, hm0, Nat.not_le.mpr hlt]
  · intro hge
    simp [start_attempt, hq, hpub, hacc, hact, hmax, hm0, hge]

theorem start_attempt_max_attempts_witness :
    start_attempt exDB 0 1 8 99 =
      (Except.ok (create_attempt exDB 0 1 8 99
          (0 + 60 * (exQuiz.duration_minutes : Int))).1,
       (create_attempt exDB 0 1 8 99
          (0 + 60 * (exQuiz.duration_minutes : Int))).2) :=
  (start_attempt_max_attempts exDB 0 1 8 99 exQuiz 3
    (by decide) (by decide) (by decide) (by decide) (by decide) (by decide)).1 (by decide)

/-! ## Claim C7 -/

/-- C7: a public quiz is accessible to everyone; a private quiz is accessible
iff an active assignment for (quiz, user) exists whose due date, when set, is
not before the current time. In particular an `is_active` assignment whose
due date lies in the past yields `some false`, and a start-attempt call on
the (published) quiz is rejected with the access-denied error. -/
theorem can_user_access_quiz_policy (db : DB) (now : Int) (user_id quiz_id new_id : Nat)
    (quiz : Quiz) (hq : get_quiz_by_id db quiz_id = some quiz) :
    (can_user_access_quiz db now user_id quiz_id = some true ↔
      (quiz.is_public = true ∨
        ∃ asg, get_user_assignment db quiz_id user_id = some asg ∧ asg.is_active = true ∧
          (∀ d, asg.due_date = some d → now ≤ d))) ∧
    (∀ asg d, quiz.is_public = false →
      get_user_assignment db quiz_id user_id = some asg →
      asg.due_date = some d → now > d →
      can_user_access_quiz db now user_id quiz_id = some false ∧
      (quiz.is_published = true →
        start_attempt db now quiz_id user_id new_id =
          (Except.error QuizError.quizAccessDenied, db))) := by
  constructor
  · unfold can_user_access_quiz
    rw [hq]
    by_cases hp : quiz.is_public = true
    · simp [hp]
    · have hp2 : quiz.is_public = false := by
        cases hpp : quiz.is_public
        · rfl
        · exact absurd hpp hp
      cases hasg : get_user_assignment db quiz_id user_id with
      | none => simp [hp2, hasg]
      | some asg =>
        have hactive : asg.is_active = true := by
          have := List.find?_some hasg
          simp only [Bool.and_eq_true] at this
          exact this.2
        cases hd : asg.due_date with
        | none => simp [hp2, hasg, hactive, hd]
        | some d =>
          by_cases hnd : now > d
          · simp only [hp2, hasg, hactive, hd, Bool.false_eq_true, if_false, if_true,
              if_pos hnd]
            constructor
            · intro hcontra
              simp at hcontra
            · rintro (hfalse | ⟨asg2, hasg2, -, hdle⟩)
              · simp [hp2] at hfalse
              · obtain rfl : asg = asg2 := by simpa using hasg2
                have := hdle d hd
                omega
          · have hle : now ≤ d := by omega
            simp only [hp2, hasg, hactive, hd, Bool.false_eq_true, if_false, if_true,
              if_neg hnd]
            constructor
            · intro _
              refine Or.inr ⟨asg, rfl, hactive, ?_⟩
              intro d2 hd2
              rw [hd] at hd2
              obtain rfl : d = d2 := by simpa using hd2
              exact hle
            · intro _
              trivial
  · intro asg d hp hasg hd hgt
    have hactive : asg.is_active = true := by
      have := List.find?_some hasg
      simp only [Bool.and_eq_true] at this
      exact this.2
    have hfalse : can_user_access_quiz db now user_id quiz_id = some false := by
      unfold can_user_access_quiz
      rw [hq]
      simp [hp, hasg, hactive, hd, hgt]
    constructor
    · exact hfalse
    · intro hpub
      simp [start_attempt, hq, hpub, hfalse]

theorem can_user_access_quiz_policy_witness :
    can_user_access_quiz exAssignedDB 200 7 2 = some false ∧
    start_attempt exAssignedDB 200 2 7 99 =
      (Except.error QuizError.quizAccessDenied, exAssignedDB) := by
  have h := (can_user_access_quiz_policy exAssignedDB 200 7 2 99 exPrivateQuiz
    (by decide)).2 exPastAssignment 100 (by decide) (by decide) (by decide) (by decide)
  exact ⟨h.1, h.2 (by decide)⟩

/-! ## Claim C8 -/

/-- C8 (refuting theorem): at time 100 the repository query does find the
expired in-progress attempt, but the worker task `auto_submit_expired_attempts`
is an unimplemented TODO stub: it returns a success status with the database
untouched, so the expired attempt stays IN_PROGRESS and unsubmitted with no
Result row — no `submit` is ever invoked, contradicting the claimed sweep
behavior (and the task's own docstring). -/
theorem auto_submit_expired_attempts_noop :
    get_expired_attempts expiredDB 100 = [expiredAttempt] ∧
    auto_submit_expired_attempts expiredDB = ("success", expiredDB) ∧
    (get_attempt_by_id (auto_submit_expired_attempts expiredDB).2 1).map
      (fun a => (a.status, a.is_submitted)) = some (AttemptStatus.IN_PROGRESS, false) ∧
    (auto_submit_expired_attempts expiredDB).2.results = [] :=
  ⟨by decide, rfl, by decide, rfl⟩

/-! ## Claim C9 -/

/-- Every attempt row is either in progress and unsubmitted, or submitted
with the flag set. -/
def AttemptStatusInv (db : DB) : Prop :=
  ∀ a ∈ db.attempts,
    (a.status = AttemptStatus.IN_PROGRESS ∧ a.is_submitted = false) ∨
    (a.status = AttemptStatus.SUBMITTED ∧ a.is_submitted = true)

/-- One lifecycle operation of the attempt service or the worker, as a step
on the database state. -/
inductive LifecycleStep : DB → DB → Prop where
  | start (db : DB) (now : Int) (quiz_id user_id new_id : Nat) :
      LifecycleStep db (start_attempt db now quiz_id user_id new_id).2
  | answer (db : DB) (now : Int) (attempt_id question_id : Nat) (sel : String) :
      LifecycleStep db (submit_answer db now attempt_id question_id sel).2
  | submit (db : DB) (now : Int) (attempt_id : Nat) :
      LifecycleStep db (submit_attempt db now attempt_id).2
  | sweep (db : DB) :
      LifecycleStep db (auto_submit_expired_attempts db).2

theorem inv_submit_attempt (db : DB) (now : Int) (aid : Nat)
    (h : AttemptStatusInv db) : AttemptStatusInv (submit_attempt db now aid).2 := by
  unfold submit_attempt
  cases hga : get_attempt_by_id db aid with
  | none => exact h
  | some a =>
    cases hsub : a.is_submitted with
    | true =>
      simp only [hsub, if_true]
      exact h
    | false =>
      simp only [hsub, Bool.false_eq_true, if_false]
      cases hcs : calculate_score db aid with
      | error e => exact h
      | ok p =>
        obtain ⟨sd, graded⟩ := p
        intro x hx
        simp only [List.mem_map] at hx
        obtain ⟨y, hy, rfl⟩ := hx
        by_cases hyid : (y.id == a.id) = true
        · rw [if_pos hyid]
          exact Or.inr ⟨rfl, rfl⟩
        · rw [if_neg hyid]
          exact h y hy

theorem inv_submit_answer (db : DB) (now : Int) (aid qid : Nat) (sel : String)
    (h : AttemptStatusInv db) : AttemptStatusInv (submit_answer db now aid qid sel).2 := by
  unfold submit_answer
  cases hga : get_attempt_by_id db aid with
  | none => exact h
  | some a =>
    cases hsub : a.is_submitted with
    | true =>
      simp only [hsub, if_true]
      exact h
    | false =>
      simp only [hsub, Bool.false_eq_true, if_false]
      by_cases hexp : now > a.expires_at
      · rw [if_pos hexp]
        have hs := inv_submit_attempt db now aid h
        rcases hsa : submit_attempt db now aid with ⟨r, db2⟩
        rw [hsa] at hs
        cases r with
        | error e => exact hs
        | ok sd => exact hs
      · rw [if_neg hexp]
        unfold create_answer
        cases hfind : db.answers.find? (fun x =>
            x.attempt_id == aid && x.question_id == qid) with
        | some existing => exact h
        | none => exact h

theorem inv_start_attempt (db : DB) (now : Int) (qid uid nid : Nat)
    (h : AttemptStatusInv db) : AttemptStatusInv (start_attempt db now qid uid nid).2 := by
  unfold start_attempt create_attempt
  repeat' split
  all_goals try exact h
  intro x hx
  simp only [List.mem_append, List.mem_singleton] at hx
  rcases hx with hx | rfl
  · exact h x hx
  · exact Or.inl ⟨rfl, rfl⟩

/-- C9 (implicit): no lifecycle operation — starting an attempt, submitting
an answer (including the auto-submission a late answer triggers), submitting
an attempt, or the periodic sweep — ever writes the EXPIRED status: every
reachable attempt is either IN_PROGRESS with `is_submitted = false` or
SUBMITTED with `is_submitted = true`, so the EXPIRED enum value never occurs
in persisted state. -/
theorem attempt_status_invariant (db db' : DB)
    (hinv : AttemptStatusInv db) (hstep : LifecycleStep db db') :
    AttemptStatusInv db' ∧ ∀ a ∈ db'.attempts, a.status ≠ AttemptStatus.EXPIRED := by
  have h2 : AttemptStatusInv db' := by
    cases hstep with
    | start now quiz_id user_id new_id => exact inv_start_attempt db now quiz_id user_id new_id hinv
    | answer now attempt_id question_id sel => exact inv_submit_answer db now attempt_id question_id sel hinv
    | submit now attempt_id => exact inv_submit_attempt db now attempt_id hinv
    | sweep => exact hinv
  refine ⟨h2, ?_⟩
  intro a ha
  rcases h2 a ha with ⟨hs, -⟩ | ⟨hs, -⟩ <;> simp [hs]

theorem attempt_status_invariant_witness :
    AttemptStatusInv (submit_attempt exDB 100 1).2 :=
  (attempt_status_invariant exDB (submit_attempt exDB 100 1).2
    (by
      intro a ha
      simp only [exDB, List.mem_singleton] at ha
      subst ha
      exact Or.inl ⟨rfl, rfl⟩)
    (LifecycleStep.submit exDB 100 1)).1

/-! ## Claim C10 -/

/-- An answer for a question id that matches none of the example quiz's
questions. -/
def foreignAnswer : Answer :=
  { attempt_id := 1, question_id := 5, selected_answer := "zz", is_correct := none,
    answered_at := 100 }

/-- C10 (implicit): `submit_answer` never checks that the question belongs to
the attempt's quiz or exists at all — for any question id whatsoever, a live
attempt gets the answer row persisted with the given question id and text;
and at scoring time an answer whose question id matches no question of the
quiz contributes 0 points and is returned ungraded, its `is_correct` left as
it was (null). -/
theorem submit_answer_no_question_validation :
    (∀ (db : DB) (now : Int) (aid qid : Nat) (sel : String) (a : Attempt),
      get_attempt_by_id db aid = some a →
      a.is_submitted = false →
      ¬ now > a.expires_at →
      ∃ ans, (submit_answer db now aid qid sel).1 = Except.ok ans ∧
        ans.question_id = qid ∧ ans.selected_answer = sel ∧
        (submit_answer db now aid qid sel).2.answers.find?
          (fun x => x.attempt_id == aid && x.question_id == qid) = some ans) ∧
    (∀ (questions : List Question) (ans : Answer),
      questions.find? (fun q => q.id == ans.question_id) = none →
      answerPoints questions ans = 0 ∧ gradeAnswer questions ans = ans) := by
  constructor
  · intro db now aid qid sel a hga hsub hexp
    simp only [submit_answer, hga, hsub, Bool.false_eq_true, if_false, if_neg hexp]
    unfold create_answer
    cases hfind : db.answers.find? (fun x =>
        x.attempt_id == aid && x.question_id == qid) with
    | some existing =>
      have hpred := List.find?_some hfind
      simp only [Bool.and_eq_true, beq_iff_eq] at hpred
      refine ⟨_, rfl, hpred.2, rfl, ?_⟩
      exact find?_map_ite _ _ db.answers existing hfind
        (by simp [hpred.1, hpred.2])
    | none =>
      refine ⟨_, rfl, rfl, rfl, ?_⟩
      exact find?_append_singleton _ _ db.answers hfind (by simp)
  · intro questions ans hfind
    unfold answerPoints gradeAnswer
    rw [hfind]
    exact ⟨rfl, rfl⟩

theorem submit_answer_no_question_validation_witness :
    (∃ ans, (submit_answer exDB 100 1 5 "zz").1 = Except.ok ans ∧
      ans.question_id = 5 ∧ ans.selected_answer = "zz" ∧
      (submit_answer exDB 100 1 5 "zz").2.answers.find?
        (fun x => x.attempt_id == 1 && x.question_id == 5) = some ans) ∧
    (answerPoints (get_questions exDB 1) foreignAnswer = 0 ∧
      gradeAnswer (get_questions exDB 1) foreignAnswer = foreignAnswer) :=
  ⟨submit_answer_no_question_validation.1 exDB 100 1 5 "zz" exAttempt
      (by decide) (by decide) (by decide),
   submit_answer_no_question_validation.2 (get_questions exDB 1) foreignAnswer (by decide)⟩

end QuizSystem
